import Mathlib

/-!
Verification development for the deep-research-agent worker
(src/worker.js). Each program function is shallowly embedded as an
executable Lean definition translated from the source; remote calls
(the OpenAI Responses API) are abstracted as explicit input streams.
-/

set_option maxRecDepth 100000

namespace DeepResearch

/-! ## String primitives

The worker manipulates JavaScript strings. These helpers model the
JS builtins used by the source (`includes`, `endsWith`, `startsWith`,
`toLowerCase`, `trim`) over the character-list representation. -/

/-- Model of JS `haystack.includes(pat)` over character lists. -/
def listContainsSub (pat : List Char) : List Char → Bool
  | [] => pat.isEmpty
  | c :: rest => pat.isPrefixOf (c :: rest) || listContainsSub pat rest

/-- Model of JS `s.includes(pat)`. -/
def strContains (s pat : String) : Bool :=
  listContainsSub pat.data s.data

/-- Model of JS `s.endsWith(post)`. -/
def strEndsWith (s post : String) : Bool :=
  post.data.isSuffixOf s.data

/-- Model of JS `s.startsWith(pre)`. -/
def strStartsWith (s pre : String) : Bool :=
  pre.data.isPrefixOf s.data

/-- Model of JS `s.toLowerCase()` (ASCII, which covers every string the
worker compares). -/
def strToLower (s : String) : String :=
  ⟨s.data.map Char.toLower⟩

/-- Whitespace recognized by the model of JS `trim`. -/
def isJsSpace (c : Char) : Bool :=
  c = ' ' || c = '\t' || c = '\n' || c = '\r'

/-- Model of JS `s.trim()`. -/
def strTrim (s : String) : String :=
  ⟨((s.data.dropWhile isJsSpace).reverse.dropWhile isJsSpace).reverse⟩

/-! ## Source quality scoring (src/worker.js lines 590-618) -/

/-- Doc/spec signal substrings (src/worker.js line 598). -/
def docSignals : List String :=
  ["standards", "ietf.org", "iso.org", "w3.org", "docs.", "developer.", "api-reference"]

/-- Academic/research signal substrings (src/worker.js line 602). -/
def researchSignals : List String :=
  ["acm.org", "ieee.org", "nature.com", "science.org", "arxiv.org"]

/-- Reference-site signal substrings (src/worker.js line 606). -/
def okSignals : List String :=
  ["wikipedia.org", "britannica.com"]

/-- Blog signal substrings (src/worker.js line 610). -/
def lowSignals : List String :=
  ["medium.com", "substack.com", "blogspot", "wordpress"]

/-- Social-media signal substrings (src/worker.js line 614). -/
def veryLowSignals : List String :=
  ["x.com", "twitter.com", "reddit.com", "tiktok.com"]

/-- Embedding of `domainQualityScore` (src/worker.js lines 590-618):
rule-ordered substring classification of a URL into a 1..5 score. -/
def domainQualityScore (url : String) : Nat :=
  let u := strToLower url
  if strEndsWith u ".gov" || strContains u ".gov/" then 5
  else if strEndsWith u ".edu" || strContains u ".edu/" then 5
  else if docSignals.any (fun x => strContains u x) then 4
  else if researchSignals.any (fun x => strContains u x) then 4
  else if okSignals.any (fun x => strContains u x) then 3
  else if lowSignals.any (fun x => strContains u x) then 2
  else if veryLowSignals.any (fun x => strContains u x) then 1
  else 2

/-! ## JavaScript numbers and option clamping (src/worker.js lines 409-426)

JS numbers are IEEE doubles; the worker only ever compares, truncates
and clamps them, so they are modelled as exact rationals together with
the non-finite values `NaN` and the two infinities. -/

/-- Model of a JS number: a finite value (exact rational) or one of the
non-finite values. -/
inductive JSNum where
  | finite (q : Rat)
  | nan
  | posInf
  | negInf
deriving DecidableEq, Repr

/-- Model of JS `Number.isFinite`. -/
def JSNum.isFiniteNum : JSNum → Bool
  | .finite _ => true
  | _ => false

/-- Model of JS `Math.trunc` on a finite value: truncation toward zero. -/
def ratTrunc (q : Rat) : Int :=
  if q.num ≥ 0 then Int.ofNat (q.num.toNat / q.den) else -Int.ofNat ((-q.num).toNat / q.den)

/-- A JS request-option value as far as the worker inspects it: a number
or a string (the shapes exercised by the numeric options). -/
inductive JSValue where
  | vnum (n : JSNum)
  | vstr (s : String)
deriving DecidableEq, Repr

/-- Modelled from the platform: JS `Number(string)` conversion,
restricted to the shapes the claims exercise — the empty/blank string
converts to 0, an unsigned decimal digit string to its value, and any
other string (such as "abc") to NaN. -/
def strToNumber (s : String) : JSNum :=
  let t := strTrim s
  if t.data.isEmpty then .finite 0
  else if t.data.all Char.isDigit then
    .finite ((t.data.foldl (fun a c => a * 10 + (c.toNat - 48)) 0 : Nat) : Rat)
  else .nan

/-- Model of JS `Number(v)` on an option value. -/
def toNumber : JSValue → JSNum
  | .vnum n => n
  | .vstr s => strToNumber s

/-- Embedding of `clampInt` (src/worker.js lines 409-413): coerce to a
number; a non-finite result collapses to `min`, otherwise truncate and
clamp into `[min, max]`. -/
def clampInt (v : JSValue) (mn mx : Int) : Int :=
  match toNumber v with
  | .finite q => max mn (min mx (ratTrunc q))
  | _ => mn

/-- Embedding of the `maxSearchRounds` config line
(src/worker.js line 132): `clampInt(options.maxSearchRounds ?? 4, 1, 10)`.
`none` models an absent option (JS `undefined`). -/
def cfgMaxSearchRounds (opt : Option JSValue) : Int :=
  clampInt (opt.getD (.vnum (.finite 4))) 1 10

/-- Embedding of the `maxFacts` config line (src/worker.js line 133):
`clampInt(options.maxFacts ?? 18, 5, 50)`. -/
def cfgMaxFacts (opt : Option JSValue) : Int :=
  clampInt (opt.getD (.vnum (.finite 18))) 5 50

/-- Embedding of the `minNewFactsPerRound` config line
(src/worker.js line 134): `clampInt(options.minNewFactsPerRound ?? 2, 0, 10)`. -/
def cfgMinNewFactsPerRound (opt : Option JSValue) : Int :=
  clampInt (opt.getD (.vnum (.finite 2))) 0 10

/-! ## Domain filtering (src/worker.js lines 633-651) -/

/-- Embedding of `normalizeUrl` (src/worker.js lines 633-635). -/
def normalizeUrl (url : String) : String :=
  strTrim url

/-- Modelled from the platform: the WHATWG `new URL(url).hostname` used
at src/worker.js line 640, restricted to absolute URLs of the form
`scheme://host[:port][/path...]`: the scheme must be a nonempty
alphanumeric token, the host is the maximal run after `://` free of
`/ : ? #` and must be nonempty (hostnames come back lowercased);
any other string models the URL constructor throwing (`none`). -/
def urlHostname (url : String) : Option String :=
  match splitSub "://".data url.data with
  | none => none
  | some (scheme, rest) =>
    if scheme.isEmpty then none
    else if !(scheme.all fun c => c.isAlpha || c.isDigit || c = '+' || c = '-' || c = '.') then none
    else
      let host := rest.takeWhile fun c => !(c = '/' || c = ':' || c = '?' || c = '#')
      if host.isEmpty then none else some (strToLower ⟨host⟩)
where
  /-- Split a character list at the first occurrence of `pat`,
  returning the parts before and after it. -/
  splitSub (pat : List Char) : List Char → Option (List Char × List Char)
    | [] => none
    | c :: rest =>
      if pat.isPrefixOf (c :: rest) then some ([], (c :: rest).drop pat.length)
      else match splitSub pat rest with
        | some (b, a) => some (c :: b, a)
        | none => none

/-- The per-entry match of `urlAllowedByForceDomains`
(src/worker.js lines 642-647): lowercase and trim the entry; an empty
entry never matches; an entry starting with `.` matches as a host
suffix; any other entry matches the exact host or a dot-prefixed
suffix. -/
def domainEntryMatches (d : String) (host : String) : Bool :=
  let dd := strTrim (strToLower d)
  if dd = "" then false
  else if strStartsWith dd "." then strEndsWith host dd
  else host == dd || strEndsWith host ("." ++ dd)

/-- Embedding of `urlAllowedByForceDomains` (src/worker.js lines
637-651): an absent or empty list allows everything; otherwise the URL
must parse and its lowercased host must match some entry; a URL that
fails to parse is rejected. -/
def urlAllowedByForceDomains (url : String) (forceDomains : Option (List String)) : Bool :=
  match forceDomains with
  | none => true
  | some ds =>
    if ds.isEmpty then true
    else
      match urlHostname url with
      | none => false
      | some h =>
        let host := strToLower h
        ds.any fun d => domainEntryMatches d host

/-! ## Evidence model (src/worker.js lines 620-631, 1313-1346)

Candidate facts arrive from the extraction stage as JSON; numeric
confidence fields are modelled at integer precision (the prompt asks
for integers 1-5) and an absent field as `none`. -/

/-- A candidate fact as produced by the extraction stage, before
normalization (the `facts` entries of src/worker.js lines 855-864). -/
structure RawFact where
  fact : String
  url : String
  title : Option String
  date : Option String
  confidence : Option Int
deriving DecidableEq, Repr

/-- A normalized, scored fact (the object built at src/worker.js lines
1326-1333). -/
structure Fact where
  fact : String
  url : String
  title : Option String
  date : Option String
  confidence : Int
  source_quality : Nat
deriving DecidableEq, Repr

/-- A conflict record accumulated verbatim (src/worker.js lines
865-874, 1346). -/
structure Conflict where
  topic : String
  claim_a : String
  source_a : String
  claim_b : String
  source_b : String
deriving DecidableEq, Repr

/-- Embedding of the per-fact normalization of src/worker.js lines
1319-1334: trim the URL, derive the source quality from it, read the
confidence through JS `Number(f.confidence || 1)` (absent or zero
collapses to 1), and cap confidence at 3 whenever the source quality is
at most 2. -/
def normalizeRoundFact (f : RawFact) : Fact :=
  let url := normalizeUrl f.url
  let source_quality := domainQualityScore url
  let c0 : Int := match f.confidence with
    | none => 1
    | some c => if c = 0 then 1 else c
  let confidence := if source_quality ≤ 2 ∧ c0 > 3 then 3 else c0
  { fact := f.fact, url := url, title := f.title, date := f.date,
    confidence := confidence, source_quality := source_quality }

/-- Embedding of the acceptance filter of src/worker.js line 1335:
`f.fact && f.url && Number(f.confidence) >= 2`. -/
def factAcceptable (f : Fact) : Bool :=
  f.fact ≠ "" && f.url ≠ "" && f.confidence ≥ 2

/-- The inner loop body of `dedupeFacts` (src/worker.js lines 620-631):
first occurrence wins, keyed by trimmed lowercase claim text; empty
keys are dropped. -/
def dedupeGo (seen : List String) : List Fact → List Fact
  | [] => []
  | f :: rest =>
    let key := strToLower (strTrim f.fact)
    if key = "" then dedupeGo seen rest
    else if seen.contains key then dedupeGo seen rest
    else f :: dedupeGo (key :: seen) rest

/-- Embedding of `dedupeFacts` (src/worker.js lines 620-631). -/
def dedupeFacts (facts : List Fact) : List Fact :=
  dedupeGo [] facts

/-- Embedding of the seen-URL accumulation of src/worker.js lines
1342-1344: add every truthy fact URL to the set of distinct sources
(the set is modelled as an insertion-ordered duplicate-free list). -/
def addSeenUrls (seen : List String) (facts : List Fact) : List String :=
  facts.foldl (fun acc f => if f.url ≠ "" ∧ f.url ∉ acc then acc ++ [f.url] else acc) seen

/-! ## Research loop (src/worker.js lines 1282-1375)

The remote stages (web search + fact extraction) are abstracted as an
input stream assigning to each round the candidate facts and conflicts
the extraction stage produced for it; everything downstream of that
stream is translated from the source. -/

/-- What the search + extraction stages deliver for one round
(src/worker.js lines 1309-1315). -/
structure RoundInput where
  facts : List RawFact
  conflicts : List Conflict
deriving Repr

/-- The loop-relevant configuration and plan parameters: `cfg.*` from
src/worker.js lines 132-138 and the plan-derived stop thresholds of
lines 1294-1299. -/
structure LoopParams where
  queries : List String
  maxSearchRounds : Nat
  maxFacts : Int
  minNewFactsPerRound : Int
  minSources : Int
  minFacts : Int
  noNewRoundsLimit : Int
  forceDomains : Option (List String)
deriving Repr

/-- The state accumulated across rounds (src/worker.js lines
1301-1304). -/
structure LoopState where
  allFacts : List Fact
  allConflicts : List Conflict
  seenUrls : List String
  noNewRounds : Nat
deriving DecidableEq, Repr

/-- The initial loop state (src/worker.js lines 1301-1304). -/
def initLoopState : LoopState :=
  { allFacts := [], allConflicts := [], seenUrls := [], noNewRounds := 0 }

/-- A stop reason recorded in the trace (src/worker.js lines 1362,
1367, 1372). -/
inductive StopReason where
  | max_facts_reached
  | coverage_reached
  | stagnation
deriving DecidableEq, Repr

/-- The normalize + filter chain applied to one round of candidate
facts (src/worker.js lines 1318-1336). -/
def roundFactsOf (p : LoopParams) (inp : RoundInput) : List Fact :=
  ((inp.facts.map normalizeRoundFact).filter factAcceptable).filter
    fun f => urlAllowedByForceDomains f.url p.forceDomains

/-- The outcome of one loop iteration. -/
structure RoundResult where
  state : LoopState
  newFacts : Int
  stop : Option StopReason
deriving Repr

/-- Embedding of one iteration of the research loop body
(src/worker.js lines 1309-1374): merge the round facts under
deduplication, count the new facts, refresh the seen-URL set, append
the conflicts, update the stagnation counter, then evaluate the three
stop conditions in their fixed priority order. -/
def processRound (p : LoopParams) (st : LoopState) (inp : RoundInput) : RoundResult :=
  let roundFacts := roundFactsOf p inp
  let before := st.allFacts.length
  let allFacts := dedupeFacts (st.allFacts ++ roundFacts)
  let newFacts : Int := (allFacts.length : Int) - (before : Int)
  let seenUrls := addSeenUrls st.seenUrls allFacts
  let allConflicts := st.allConflicts ++ inp.conflicts
  let noNewRounds := if newFacts < p.minNewFactsPerRound then st.noNewRounds + 1 else 0
  let st' : LoopState :=
    { allFacts := allFacts, allConflicts := allConflicts,
      seenUrls := seenUrls, noNewRounds := noNewRounds }
  let stop : Option StopReason :=
    if (allFacts.length : Int) ≥ p.maxFacts then some .max_facts_reached
    else if (seenUrls.length : Int) ≥ p.minSources ∧ (allFacts.length : Int) ≥ p.minFacts then
      some .coverage_reached
    else if (noNewRounds : Int) ≥ p.noNewRoundsLimit then some .stagnation
    else none
  { state := st', newFacts := newFacts, stop := stop }

/-- Embedding of the query selection of src/worker.js line 1307:
`queries[(round - 1) % Math.max(1, queries.length)]`. -/
def selectQuery (queries : List String) (round : Nat) : Option String :=
  queries[(round - 1) % max 1 queries.length]?

/-- Embedding of the query-list preparation of src/worker.js line 1294:
`Array.isArray(plan.queries) ? plan.queries.slice(0, 10) : [question]`. -/
def agentQueries (planQueries : Option (List String)) (question : String) : List String :=
  match planQueries with
  | some qs => qs.take 10
  | none => [question]

/-- One per-round trace entry (query used and new-fact count). -/
structure RoundTrace where
  round : Nat
  query : Option String
  newFacts : Int
deriving Repr

/-- The overall outcome of the research loop: final state, per-round
trace, and the stop condition that fired (`none` when the round budget
was exhausted). -/
structure LoopResult where
  state : LoopState
  trace : List RoundTrace
  stopInfo : Option (Nat × StopReason)
deriving Repr

/-- Embedding of the `for (round = 1; round <= cfg.maxSearchRounds;
round++)` loop of src/worker.js lines 1306-1375. The fuel argument is
the number of rounds still allowed (`maxSearchRounds - round + 1`), so
fuel 0 is exactly the loop condition failing. -/
def runLoopAux (p : LoopParams) (stream : Nat → RoundInput) :
    Nat → Nat → LoopState → LoopResult
  | 0, _, st => { state := st, trace := [], stopInfo := none }
  | fuel + 1, round, st =>
    let res := processRound p st (stream round)
    match res.stop with
    | some r =>
      { state := res.state,
        trace := [{ round := round, query := selectQuery p.queries round, newFacts := res.newFacts }],
        stopInfo := some (round, r) }
    | none =>
      let rest := runLoopAux p stream fuel (round + 1) res.state
      { state := rest.state,
        trace := { round := round, query := selectQuery p.queries round,
                   newFacts := res.newFacts } :: rest.trace,
        stopInfo := rest.stopInfo }

/-- The research loop of `deepResearchAgent` (src/worker.js lines
1306-1375), started at round 1 with the empty evidence state. -/
def runLoop (p : LoopParams) (stream : Nat → RoundInput) : LoopResult :=
  runLoopAux p stream p.maxSearchRounds 1 initLoopState

/-- The evidence state after the first `n` rounds of the loop body,
ignoring stop conditions (stopping only truncates the iteration, it
never changes how a round transforms the state). -/
def stateAfter (p : LoopParams) (stream : Nat → RoundInput) : Nat → LoopState
  | 0 => initLoopState
  | n + 1 => (processRound p (stateAfter p stream n) (stream (n + 1))).state

/-- The `newFacts` count computed by round `i` (1-indexed). -/
def newFactsAt (p : LoopParams) (stream : Nat → RoundInput) (i : Nat) : Int :=
  (processRound p (stateAfter p stream (i - 1)) (stream i)).newFacts

/-- The stop condition (if any) evaluated at the end of round `i`
(1-indexed). -/
def stopAt (p : LoopParams) (stream : Nat → RoundInput) (i : Nat) : Option StopReason :=
  (processRound p (stateAfter p stream (i - 1)) (stream i)).stop

/-! ## Validation result and final-answer selection
(src/worker.js lines 972-973 and 1386) -/

/-- The validator output as the agent reads it (src/worker.js lines
954-959): `revised_answer` is `none` when the field is absent. -/
structure Validation where
  ok : Bool
  issues : List String
  revised_answer : Option String
deriving DecidableEq, Repr

/-- Embedding of the validator parse fallback (src/worker.js line 973):
a failed parse yields `ok: false` with the draft as the revised
answer. -/
def validateParsed (parsed : Option Validation) (draft : String) : Validation :=
  parsed.getD { ok := false, issues := ["Validator JSON parse failed"], revised_answer := some draft }

/-- Embedding of the final-answer selection (src/worker.js line 1386):
`validation.ok ? draft : (validation.revised_answer || draft)`, with JS
string truthiness (an absent or empty revised answer falls back to the
draft). -/
def chooseAnswer (validation : Validation) (draft : String) : String :=
  if validation.ok then draft
  else match validation.revised_answer with
    | none => draft
    | some s => if s = "" then draft else s

/-! ## Retry with exponential backoff (src/worker.js lines 454-511)

`retryWithBackoff` drives an async `fn`; successive invocations of `fn`
are abstracted as a stream indexed by the attempt number. Each
invocation either resolves to an HTTP-shaped result or throws. -/

/-- The result shape `openaiResponsesCreate` resolves with
(src/worker.js lines 677-685): an ok flag and the HTTP status. -/
structure HttpResult where
  ok : Bool
  status : Nat
deriving DecidableEq, Repr

/-- One behavior of the retried function: resolve with a result or
throw with an error message. -/
inductive Attempt where
  | result (r : HttpResult)
  | thrown (msg : String)
deriving DecidableEq, Repr

/-- How `retryWithBackoff` ends: a returned result or a propagated
exception. -/
inductive RetryOutcome where
  | returned (r : HttpResult)
  | threw (msg : String)
deriving DecidableEq, Repr

/-- Embedding of the status-based part of `defaultShouldRetry`
(src/worker.js lines 494-511) as applied to an HTTP result: retry on
429 and on any 5xx. (The `error instanceof Error` branch can never fire
for an HTTP result, whose `error` field holds parsed JSON.) -/
def defaultShouldRetry (r : HttpResult) : Bool :=
  r.status == 429 || (500 ≤ r.status && r.status < 600)

/-- Embedding of the message-based part of `defaultShouldRetry`
(src/worker.js lines 503-508) as applied to a thrown `Error`: retry
when the lowercased message mentions a network, timeout or connection
reset failure. -/
def shouldRetryMessage (msg : String) : Bool :=
  let m := strToLower msg
  strContains m "network" || strContains m "timeout" || strContains m "econnreset"

/-- Whether an attempt behavior is a transient failure under the
default retry policy. -/
def attemptTransient : Attempt → Bool
  | .result r => !r.ok && defaultShouldRetry r
  | .thrown m => shouldRetryMessage m

/-- What `retryWithBackoff` produced: the final outcome, the backoff
delays slept between attempts (in order), and the number of times the
function was invoked. -/
structure RetryResult where
  outcome : RetryOutcome
  delays : List Nat
  attempts : Nat
deriving DecidableEq, Repr

/-- Embedding of the `for (attempt = 0; attempt <= maxRetries;
attempt++)` body of `retryWithBackoff` (src/worker.js lines 454-484).
`remaining` counts the attempts still allowed after the current one, so
`remaining = 0` is exactly `attempt == maxRetries`: a resolved result is
then returned as is (surfacing the last failure) and a thrown error
propagates. With attempts remaining, a retryable failed result or a
retryable thrown error sleeps `baseDelayMs * 2 ^ attempt` and retries;
anything else returns or propagates immediately. -/
def retryAux (f : Nat → Attempt) (baseDelayMs : Nat) : Nat → Nat → RetryResult
  | attempt, 0 =>
    match f attempt with
    | .result r => { outcome := .returned r, delays := [], attempts := 1 }
    | .thrown m => { outcome := .threw m, delays := [], attempts := 1 }
  | attempt, remaining + 1 =>
    match f attempt with
    | .result r =>
      if !r.ok && defaultShouldRetry r then
        let rest := retryAux f baseDelayMs (attempt + 1) remaining
        { outcome := rest.outcome, delays := baseDelayMs * 2 ^ attempt :: rest.delays,
          attempts := rest.attempts + 1 }
      else { outcome := .returned r, delays := [], attempts := 1 }
    | .thrown m =>
      if shouldRetryMessage m then
        let rest := retryAux f baseDelayMs (attempt + 1) remaining
        { outcome := rest.outcome, delays := baseDelayMs * 2 ^ attempt :: rest.delays,
          attempts := rest.attempts + 1 }
      else { outcome := .threw m, delays := [], attempts := 1 }

/-- The default retry bound of `retryWithBackoff` (src/worker.js line
455). -/
def defaultMaxRetries : Nat := 3

/-- The default base backoff delay of `retryWithBackoff`
(src/worker.js line 456), in milliseconds. -/
def defaultBaseDelayMs : Nat := 1000

/-- Embedding of `retryWithBackoff` (src/worker.js lines 454-484) under
the default `shouldRetry` predicate. -/
def retryWithBackoff (f : Nat → Attempt) (maxRetries baseDelayMs : Nat) : RetryResult :=
  retryAux f baseDelayMs 0 maxRetries

/-! ## Responses API payloads and text extraction
(src/worker.js lines 697-719) -/

/-- One content segment of a Responses API output item. -/
structure ContentPart where
  type : String
  text : Option String
deriving DecidableEq, Repr

/-- The `content` field of an output item: an array of segments, a bare
string, or absent. -/
inductive ContentVal where
  | parts (l : List ContentPart)
  | str (s : String)
  | missing
deriving DecidableEq, Repr

/-- One item of the Responses API `output` array. -/
structure OutputItem where
  content : ContentVal
deriving DecidableEq, Repr

/-- A Responses API response body as far as the worker reads it:
id, status, the optional `output_text` shortcut, the `output` array,
and the error envelope fields surfaced on failure. -/
structure RespData where
  id : Option String
  status : String
  output_text : Option String
  output : Option (List OutputItem)
  error_message : Option String
  error_code : Option String
deriving DecidableEq, Repr

/-- Newline join of text chunks (JS `chunks.join("\n")`). -/
def joinNl : List String → String
  | [] => ""
  | [s] => s
  | s :: rest => s ++ "\n" ++ joinNl rest

/-- The chunks contributed by one output item (src/worker.js lines
707-716): text-typed nonempty segments of an array content, a string
content verbatim, nothing otherwise. -/
def contentChunks : ContentVal → List String
  | .parts l =>
    l.filterMap fun c =>
      if c.type == "output_text" || c.type == "text" then
        match c.text with
        | some t => if t = "" then none else some t
        | none => none
      else none
  | .str s => [s]
  | .missing => []

/-- Embedding of `extractText` (src/worker.js lines 697-719): prefer a
nonempty `output_text`, otherwise collect text segments from the
`output` array in order, newline-join and trim. -/
def extractText (respData : Option RespData) : String :=
  match respData with
  | none => ""
  | some d =>
    let fromOutput :=
      strTrim (joinNl (((d.output.getD []).map fun it => contentChunks it.content).flatten))
    match d.output_text with
    | some s => if s = "" then fromOutput else s
    | none => fromOutput

/-! ## Background polling (src/worker.js lines 1001-1057 and 1100-1280)

The poll loop is wall-clock bounded: the only waiting the worker does
is its own sleeps, so elapsed time is modelled as the sum of the sleep
durations. Each iteration sleeps at least `pollIntervalMs`, so the loop
runs at most `maxWaitMs / pollIntervalMs = 360` iterations; the
structural fuel is fixed at 361, which the lemmas
`resumePollLoop_fuel_irrelevant` and `deepPollLoop_fuel_irrelevant`
show is never exhausted. -/

/-- The maximum wait window of both poll loops (30 minutes in ms,
src/worker.js lines 1005 and 1169). -/
def maxWaitMs : Nat := 30 * 60 * 1000

/-- The fixed sleep between polls (src/worker.js lines 1006 and
1170). -/
def pollIntervalMs : Nat := 5000

/-- The consecutive-error bound of both poll loops (src/worker.js
lines 1011 and 1173). -/
def maxConsecutiveErrors : Nat := 3

/-- Structural fuel for the poll loops: one more than the largest
possible number of iterations of the 30-minute window. -/
def pollLoopFuel : Nat := 361

/-- One observed poll attempt: a parsed 2xx response, a non-2xx
response (with the parsed retry-after header, when present, and the
error body text), or a transport/parse error with its message. -/
inductive FetchResult where
  | httpOk (d : RespData)
  | httpErr (status : Nat) (retryAfter : Option Nat) (body : String)
  | netErr (msg : String)
deriving Repr

/-- The JSON body `handleResumeResponse` replies with, as far as the
claims read it. -/
structure ResumeResult where
  ok : Bool
  answer : Option String
  error : Option String
  error_code : Option String
  response_id : Option String
  status : Option String
  status_code : Option Nat
deriving DecidableEq, Repr

/-- The resume reply for an already-completed job (src/worker.js lines
1123-1135 and 1240-1253). -/
def completedResume (rid : String) (d : RespData) : ResumeResult :=
  { ok := true, answer := some (extractText (some d)), error := none, error_code := none,
    response_id := some rid, status := none, status_code := none }

/-- The resume reply for a failed job (src/worker.js lines 1137-1150
and 1255-1269). -/
def failedResume (rid : String) (d : RespData) : ResumeResult :=
  { ok := false, answer := none, error := some (d.error_message.getD "Deep research failed"),
    error_code := some (d.error_code.getD "unknown"), response_id := some rid,
    status := none, status_code := none }

/-- The resume reply for a cancelled job (src/worker.js lines
1152-1163). -/
def cancelledResume (rid : String) : ResumeResult :=
  { ok := false, answer := none, error := some "Research was cancelled", error_code := none,
    response_id := some rid, status := none, status_code := none }

/-- The resume reply when the wait window expires while the job is
still non-terminal (src/worker.js lines 1228-1236): a timed-out
failure that carries the job id both in the message and in the
`response_id` field. -/
def timeoutResume (rid : String) (result : RespData) : ResumeResult :=
  { ok := false, answer := none,
    error := some ("Polling timed out after 30 minutes. Use GET /research/" ++ rid ++ " to resume later."),
    error_code := none, response_id := some rid, status := some result.status,
    status_code := none }

/-- The resume reply when consecutive rate limits exhaust the error
bound (src/worker.js lines 1192-1200). -/
def rateLimitedResume (rid : String) (result : RespData) : ResumeResult :=
  { ok := false, answer := none,
    error := some ("Rate limit exceeded after 3 retries. Use GET /research/" ++ rid ++ " to resume later."),
    error_code := none, response_id := some rid, status := some result.status,
    status_code := none }

/-- The resume reply when consecutive poll errors exhaust the error
bound (src/worker.js lines 1212-1224). -/
def pollErrorResume (rid : String) (result : RespData) (msg : String) : ResumeResult :=
  { ok := false, answer := none, error := some msg, error_code := none,
    response_id := some rid, status := some result.status, status_code := none }

/-- The resume reply for an unknown status (src/worker.js lines
1271-1279). -/
def unknownResume (rid : String) (result : RespData) : ResumeResult :=
  { ok := false, answer := none, error := some ("Unknown status: " ++ result.status),
    error_code := none, response_id := some rid, status := some result.status,
    status_code := none }

/-- How the resume poll `while` loop ends: the condition failed
(returning the last seen response and the status-fetch count), or the
error bound forced an early reply. -/
inductive PollEnd where
  | finished (result : RespData) (fetches : Nat)
  | earlyReturn (r : ResumeResult) (fetches : Nat)
deriving DecidableEq, Repr

/-- Embedding of the resume poll loop (src/worker.js lines 1175-1225):
while the status is non-terminal and the window is open, sleep, fetch
the status, reset the error counter on success, honor retry-after on a
429, and count consecutive 429/transport errors against the bound.
`idx` indexes the poll stream, `elapsed` accumulates the sleeps and
`fetches` counts the status fetches made so far. -/
def resumePollLoop (rid : String) (polls : Nat → FetchResult) :
    Nat → Nat → Nat → RespData → Nat → Nat → PollEnd
  | 0, _, _, result, _, fetches => .finished result fetches
  | fuel + 1, idx, elapsed, result, consec, fetches =>
    if (result.status = "in_progress" ∨ result.status = "queued") ∧ elapsed < maxWaitMs then
      let e1 := elapsed + pollIntervalMs
      match polls idx with
      | .httpOk d => resumePollLoop rid polls fuel (idx + 1) e1 d 0 (fetches + 1)
      | .httpErr status ra body =>
        if status = 429 then
          if consec + 1 ≥ maxConsecutiveErrors then
            .earlyReturn (rateLimitedResume rid result) (fetches + 1)
          else
            resumePollLoop rid polls fuel (idx + 1) (e1 + ra.getD 10 * 1000) result (consec + 1)
              (fetches + 1)
        else
          if consec + 1 ≥ maxConsecutiveErrors then
            .earlyReturn (pollErrorResume rid result ("Polling error: " ++ body)) (fetches + 1)
          else resumePollLoop rid polls fuel (idx + 1) e1 result (consec + 1) (fetches + 1)
      | .netErr m =>
        if consec + 1 ≥ maxConsecutiveErrors then
          .earlyReturn (pollErrorResume rid result m) (fetches + 1)
        else resumePollLoop rid polls fuel (idx + 1) e1 result (consec + 1) (fetches + 1)
    else .finished result fetches

/-- How the initial status fetch of a resume resolved (src/worker.js
lines 1105-1119). -/
inductive InitialFetch where
  | ok (d : RespData)
  | httpErr (status : Nat) (errMessage : Option String)
deriving Repr

/-- Embedding of `handleResumeResponse` (src/worker.js lines
1100-1280): fetch the status once; reply immediately on a terminal
status; otherwise poll, then reply according to the final status. The
second component counts every status fetch issued (the initial one
included). -/
def handleResumeResponse (rid : String) (initial : InitialFetch)
    (polls : Nat → FetchResult) : ResumeResult × Nat :=
  match initial with
  | .httpErr status m =>
    ({ ok := false, answer := none,
       error := some (m.getD ("Failed to fetch response: " ++ toString status)),
       error_code := none, response_id := some rid, status := none,
       status_code := some status }, 1)
  | .ok result0 =>
    if result0.status = "completed" then (completedResume rid result0, 1)
    else if result0.status = "failed" then (failedResume rid result0, 1)
    else if result0.status = "cancelled" then (cancelledResume rid, 1)
    else if result0.status = "in_progress" ∨ result0.status = "queued" then
      match resumePollLoop rid polls pollLoopFuel 0 0 result0 0 1 with
      | .earlyReturn r fetches => (r, fetches)
      | .finished result fetches =>
        if result.status = "in_progress" ∨ result.status = "queued" then
          (timeoutResume rid result, fetches)
        else if result.status = "completed" then (completedResume rid result, fetches)
        else if result.status = "failed" then (failedResume rid result, fetches)
        else (unknownResume rid result, fetches)
    else (unknownResume rid result0, 1)

/-- How the submit-path background poll loop ends (src/worker.js lines
1013-1050): the `while` condition failed, or an error propagated out as
a thrown exception. -/
inductive DeepPollEnd where
  | finished (result : RespData) (fetches : Nat)
  | threw (msg : String) (fetches : Nat)
deriving DecidableEq, Repr

/-- Embedding of the submit-path background poll loop of
`runDeepResearchModel` (src/worker.js lines 1013-1050). It differs
from the resume loop in its retry-after default (5s instead of 10s)
and in that exhausting the error bound throws instead of returning a
JSON reply; a caught error whose message mentions a rate limit is
rethrown immediately. -/
def deepPollLoop (polls : Nat → FetchResult) :
    Nat → Nat → Nat → RespData → Nat → Nat → DeepPollEnd
  | 0, _, _, result, _, fetches => .finished result fetches
  | fuel + 1, idx, elapsed, result, consec, fetches =>
    if (result.status = "in_progress" ∨ result.status = "queued") ∧ elapsed < maxWaitMs then
      let e1 := elapsed + pollIntervalMs
      match polls idx with
      | .httpOk d => deepPollLoop polls fuel (idx + 1) e1 d 0 (fetches + 1)
      | .httpErr status ra body =>
        if status = 429 then
          if consec + 1 ≥ maxConsecutiveErrors then
            .threw "Rate limit exceeded after 3 retries" (fetches + 1)
          else
            deepPollLoop polls fuel (idx + 1) (e1 + ra.getD 5 * 1000) result (consec + 1)
              (fetches + 1)
        else
          if consec + 1 ≥ maxConsecutiveErrors then
            .threw ("Polling error: " ++ body) (fetches + 1)
          else deepPollLoop polls fuel (idx + 1) e1 result (consec + 1) (fetches + 1)
      | .netErr m =>
        if strContains m "Rate limit" then .threw m (fetches + 1)
        else if consec + 1 ≥ maxConsecutiveErrors then .threw m (fetches + 1)
        else deepPollLoop polls fuel (idx + 1) e1 result (consec + 1) (fetches + 1)
    else .finished result fetches

/-- How the background phase of `runDeepResearchModel` hands control
onward: proceed to the status handling of src/worker.js lines
1059-1093 with a response, or propagate a thrown error. -/
inductive DeepPhaseEnd where
  | proceed (result : RespData)
  | threw (msg : String)
deriving DecidableEq, Repr

/-- Embedding of the background-mode handling of `runDeepResearchModel`
(src/worker.js lines 1001-1057): when background mode is on and the
initial response is non-terminal, poll; if the window expires while the
job is still non-terminal, throw the bare error
`Deep research timed out after 30 minutes`. -/
def deepResearchPollPhase (background : Bool) (polls : Nat → FetchResult)
    (initial : RespData) : DeepPhaseEnd :=
  if background ∧ (initial.status = "in_progress" ∨ initial.status = "queued") then
    match deepPollLoop polls pollLoopFuel 0 0 initial 0 0 with
    | .threw m _ => .threw m
    | .finished result _ =>
      if result.status = "in_progress" ∨ result.status = "queued" then
        .threw "Deep research timed out after 30 minutes"
      else .proceed result
  else .proceed initial

/-- The JSON body the worker route handler replies with when a thrown
error escapes (src/worker.js lines 168-176): only the error message
(plus a stack trace); in particular no `response_id` field exists in
this shape. -/
structure WorkerErrorBody where
  error : String
deriving DecidableEq, Repr

/-- Embedding of the catch-all of the route handler (src/worker.js
lines 168-176) applied to a thrown error message. -/
def workerCatchBody (msg : String) : WorkerErrorBody :=
  { error := msg }

/-! ## Helper lemmas -/

/-- The empty pattern is found in every list. -/
lemma listContainsSub_nil_pat : ∀ l : List Char, listContainsSub [] l = true
  | [] => rfl
  | _ :: _ => by simp [listContainsSub, List.isPrefixOf]

/-- A pattern is found inside any list that contains it as a
contiguous run. -/
lemma listContainsSub_append (pat ys : List Char) :
    ∀ xs : List Char, listContainsSub pat (xs ++ (pat ++ ys)) = true := by
  intro xs
  induction xs with
  | nil =>
    cases pat with
    | nil => exact listContainsSub_nil_pat ys
    | cons c rest =>
      simp only [List.nil_append, listContainsSub, Bool.or_eq_true]
      exact Or.inl (List.isPrefixOf_iff_prefix.mpr (List.prefix_append _ _))
  | cons c xs ih =>
    simp only [List.cons_append, listContainsSub, Bool.or_eq_true]
    exact Or.inr ih

/-- A string occurs as a substring of any concatenation that embeds it
verbatim. -/
lemma strContains_append (a r b : String) : strContains (a ++ r ++ b) r = true := by
  have h : (a ++ r ++ b).data = a.data ++ (r.data ++ b.data) := by
    simp [String.data_append]
  simpa [strContains, h] using listContainsSub_append r.data b.data a.data

/-- A string starting with a dot is nonempty. -/
lemma ne_empty_of_startsWith_dot (s : String) (h : strStartsWith s "." = true) : s ≠ "" := by
  intro he
  subst he
  simp [strStartsWith, List.isPrefixOf] at h

/-! ## Claim theorems -/

/-- The gov/edu guard of `domainQualityScore` (src/worker.js lines
593-595). -/
def govEduGuard (u : String) : Bool :=
  strEndsWith u ".gov" || strContains u ".gov/" || strEndsWith u ".edu" || strContains u ".edu/"

/-- A signal-list guard of `domainQualityScore`. -/
def sigGuard (sigs : List String) (u : String) : Bool :=
  sigs.any fun x => strContains u x

/-- Characterization of `domainQualityScore` as a priority chain over
its tier guards (definitional: the source checks the tiers in exactly
this order, first match winning). -/
lemma domainQualityScore_eq (url : String) :
    domainQualityScore url =
      (if govEduGuard (strToLower url) then 5
       else if sigGuard docSignals (strToLower url) then 4
       else if sigGuard researchSignals (strToLower url) then 4
       else if sigGuard okSignals (strToLower url) then 3
       else if sigGuard lowSignals (strToLower url) then 2
       else if sigGuard veryLowSignals (strToLower url) then 1
       else 2) := by
  simp only [domainQualityScore, govEduGuard, sigGuard]
  cases hg1 : strEndsWith (strToLower url) ".gov" <;>
    cases hg2 : strContains (strToLower url) ".gov/" <;>
      cases he1 : strEndsWith (strToLower url) ".edu" <;>
        cases he2 : strContains (strToLower url) ".edu/" <;> simp

/-- C4. Source-quality scoring is a total deterministic function of the
URL string with range 1..5; nist.gov scores 5, a medium.com blog
scores 2, an x.com post scores 1, an unmatched host scores 2, and the
tiers are evaluated in the fixed priority order gov/edu, docs, research
publishers, encyclopedias, blogs, social media, first match winning. -/
theorem c4_source_quality_scoring :
    (∀ url : String, domainQualityScore url = domainQualityScore url)
    ∧ (∀ url : String, 1 ≤ domainQualityScore url ∧ domainQualityScore url ≤ 5)
    ∧ domainQualityScore "https://nist.gov/x" = 5
    ∧ domainQualityScore "https://example.medium.com/post" = 2
    ∧ domainQualityScore "https://x.com/user/status/1" = 1
    ∧ (∀ url : String, govEduGuard (strToLower url) = true → domainQualityScore url = 5)
    ∧ (∀ url : String, govEduGuard (strToLower url) = false →
        sigGuard docSignals (strToLower url) = true → domainQualityScore url = 4)
    ∧ (∀ url : String, govEduGuard (strToLower url) = false →
        sigGuard docSignals (strToLower url) = false →
        sigGuard researchSignals (strToLower url) = true → domainQualityScore url = 4)
    ∧ (∀ url : String, govEduGuard (strToLower url) = false →
        sigGuard docSignals (strToLower url) = false →
        sigGuard researchSignals (strToLower url) = false →
        sigGuard okSignals (strToLower url) = true → domainQualityScore url = 3)
    ∧ (∀ url : String, govEduGuard (strToLower url) = false →
        sigGuard docSignals (strToLower url) = false →
        sigGuard researchSignals (strToLower url) = false →
        sigGuard okSignals (strToLower url) = false →
        sigGuard lowSignals (strToLower url) = true → domainQualityScore url = 2)
    ∧ (∀ url : String, govEduGuard (strToLower url) = false →
        sigGuard docSignals (strToLower url) = false →
        sigGuard researchSignals (strToLower url) = false →
        sigGuard okSignals (strToLower url) = false →
        sigGuard lowSignals (strToLower url) = false →
        sigGuard veryLowSignals (strToLower url) = true → domainQualityScore url = 1)
    ∧ (∀ url : String, govEduGuard (strToLower url) = false →
        sigGuard docSignals (strToLower url) = false →
        sigGuard researchSignals (strToLower url) = false →
        sigGuard okSignals (strToLower url) = false →
        sigGuard lowSignals (strToLower url) = false →
        sigGuard veryLowSignals (strToLower url) = false → domainQualityScore url = 2) := by
  refine ⟨fun _ => rfl, ?_, by decide, by decide, by decide, ?_, ?_, ?_, ?_, ?_, ?_, ?_⟩
  · intro url
    rw [domainQualityScore_eq]
    split_ifs <;> omega
  · intro url h1
    rw [domainQualityScore_eq]
    simp [h1]
  · intro url h1 h2
    rw [domainQualityScore_eq]
    simp [h1, h2]
  · intro url h1 h2 h3
    rw [domainQualityScore_eq]
    simp [h1, h2, h3]
  · intro url h1 h2 h3 h4
    rw [domainQualityScore_eq]
    simp [h1, h2, h3, h4]
  · intro url h1 h2 h3 h4 h5
    rw [domainQualityScore_eq]
    simp [h1, h2, h3, h4, h5]
  · intro url h1 h2 h3 h4 h5 h6
    rw [domainQualityScore_eq]
    simp [h1, h2, h3, h4, h5, h6]
  · intro url h1 h2 h3 h4 h5 h6
    rw [domainQualityScore_eq]
    simp [h1, h2, h3, h4, h5, h6]

/-- C4 witness: the gov/edu tier conjunct at a concrete URL. -/
theorem c4_source_quality_scoring_witness :
    govEduGuard (strToLower "https://nist.gov/x") = true
    ∧ domainQualityScore "https://nist.gov/x" = 5 :=
  ⟨by decide, c4_source_quality_scoring.2.2.2.2.2.1 "https://nist.gov/x" (by decide)⟩

/-- C10. A non-finite numeric option collapses to the range minimum:
`clampInt` returns `min` whenever JS `Number` of the input is not
finite, so `maxFacts: "abc"` yields 5 (not the default 18) and
`maxSearchRounds: "abc"` yields 1 (not the default 4). -/
theorem c10_clampInt_nonfinite_collapses_to_min :
    (∀ (v : JSValue) (mn mx : Int), (toNumber v).isFiniteNum = false → clampInt v mn mx = mn)
    ∧ cfgMaxFacts (some (.vstr "abc")) = 5
    ∧ cfgMaxFacts (some (.vstr "abc")) ≠ 18
    ∧ cfgMaxSearchRounds (some (.vstr "abc")) = 1
    ∧ cfgMaxSearchRounds (some (.vstr "abc")) ≠ 4
    ∧ clampInt (.vnum .nan) 5 50 = 5
    ∧ clampInt (.vnum .posInf) 5 50 = 5
    ∧ clampInt (.vnum .negInf) 1 10 = 1
    ∧ cfgMaxFacts none = 18
    ∧ cfgMaxSearchRounds none = 4 := by
  refine ⟨?_, by decide, by decide, by decide, by decide, by decide, by decide, by decide,
    by decide, by decide⟩
  intro v mn mx h
  unfold clampInt
  cases hv : toNumber v with
  | finite q => rw [hv] at h; simp [JSNum.isFiniteNum] at h
  | nan => rfl
  | posInf => rfl
  | negInf => rfl

/-- C10 witness: the non-finite conjunct at the concrete input
`"abc"` with the `maxFacts` range. -/
theorem c10_clampInt_nonfinite_witness :
    (toNumber (.vstr "abc")).isFiniteNum = false
    ∧ clampInt (.vstr "abc") 5 50 = 5 :=
  ⟨by decide, c10_clampInt_nonfinite_collapses_to_min.1 (.vstr "abc") 5 50 (by decide)⟩

/-- C5. Domain filtering: with `forceDomains = [".gov"]` the URL
`https://epa.gov/report` is accepted and `https://epa.com/report` is
rejected; for a non-empty list an unparseable URL is rejected, a parsed
URL is accepted exactly when some entry matches its lowercased host, a
dot-prefixed entry matches by host suffix and any other entry by exact
host or dot-prefixed suffix. -/
theorem c5_domain_filtering :
    urlAllowedByForceDomains "https://epa.gov/report" (some [".gov"]) = true
    ∧ urlAllowedByForceDomains "https://epa.com/report" (some [".gov"]) = false
    ∧ (∀ (url : String) (ds : List String), ds ≠ [] → urlHostname url = none →
        urlAllowedByForceDomains url (some ds) = false)
    ∧ (∀ (url : String) (ds : List String) (h : String), ds ≠ [] → urlHostname url = some h →
        urlAllowedByForceDomains url (some ds) =
          ds.any fun d => domainEntryMatches d (strToLower h))
    ∧ (∀ d host : String, strStartsWith (strTrim (strToLower d)) "." = true →
        domainEntryMatches d host = strEndsWith host (strTrim (strToLower d)))
    ∧ (∀ d host : String, strTrim (strToLower d) ≠ "" →
        strStartsWith (strTrim (strToLower d)) "." = false →
        domainEntryMatches d host =
          (host == strTrim (strToLower d) || strEndsWith host ("." ++ strTrim (strToLower d)))) := by
  refine ⟨by decide, by decide, ?_, ?_, ?_, ?_⟩
  · intro url ds hne hparse
    unfold urlAllowedByForceDomains
    rw [hparse]
    cases ds with
    | nil => exact absurd rfl hne
    | cons d rest => simp [List.isEmpty]
  · intro url ds h hne hparse
    unfold urlAllowedByForceDomains
    rw [hparse]
    cases ds with
    | nil => exact absurd rfl hne
    | cons d rest => simp [List.isEmpty]
  · intro d host hdot
    have hne := ne_empty_of_startsWith_dot _ hdot
    simp [domainEntryMatches, hne, hdot]
  · intro d host hne hdot
    simp [domainEntryMatches, hne, hdot]

/-- C5 witness: the parse-failure conjunct and the dot-suffix conjunct
at concrete inputs. -/
theorem c5_domain_filtering_witness :
    urlHostname "not a url" = none
    ∧ urlAllowedByForceDomains "not a url" (some [".gov"]) = false
    ∧ strStartsWith (strTrim (strToLower ".GOV ")) "." = true
    ∧ domainEntryMatches ".GOV " "epa.gov" = strEndsWith "epa.gov" (strTrim (strToLower ".GOV ")) :=
  ⟨by decide,
   c5_domain_filtering.2.2.1 "not a url" [".gov"] (by decide) (by decide),
   by decide,
   c5_domain_filtering.2.2.2.2.1 ".GOV " "epa.gov" (by decide)⟩

/-- C9. Final-answer selection: when validation reports not-ok the
final answer is the revised answer only if it is a nonempty string; a
missing or empty revised answer falls back to the synthesized draft,
and the validator parse-failure default carries the draft as its
revised answer, so the draft is returned. -/
theorem c9_final_answer_selection :
    (∀ (v : Validation) (draft : String), v.ok = false →
        v.revised_answer = none ∨ v.revised_answer = some "" → chooseAnswer v draft = draft)
    ∧ (∀ (v : Validation) (draft s : String), v.ok = false → v.revised_answer = some s →
        s ≠ "" → chooseAnswer v draft = s)
    ∧ (∀ draft : String, (validateParsed none draft).revised_answer = some draft
        ∧ (validateParsed none draft).ok = false
        ∧ chooseAnswer (validateParsed none draft) draft = draft)
    ∧ (∀ (v : Validation) (draft : String), v.ok = true → chooseAnswer v draft = draft) := by
  refine ⟨?_, ?_, ?_, ?_⟩
  · intro v draft hok hrev
    cases hrev with
    | inl h => simp [chooseAnswer, hok, h]
    | inr h => simp [chooseAnswer, hok, h]
  · intro v draft s hok hrev hs
    simp [chooseAnswer, hok, hrev, hs]
  · intro draft
    refine ⟨rfl, rfl, ?_⟩
    simp only [chooseAnswer, validateParsed, Option.getD]
    split <;> simp
  · intro v draft hok
    simp [chooseAnswer, hok]

/-- C9 witness: the not-ok empty-revision conjunct at a concrete
validation record. -/
theorem c9_final_answer_selection_witness :
    chooseAnswer { ok := false, issues := [], revised_answer := some "" } "the draft" = "the draft" :=
  c9_final_answer_selection.1 { ok := false, issues := [], revised_answer := some "" }
    "the draft" rfl (Or.inr rfl)

/-- The outcome `retryWithBackoff` surfaces for the final attempt. -/
def lastOutcome : Attempt → RetryOutcome
  | .result r => .returned r
  | .thrown m => .threw m

/-- Splitting the exponential backoff delay list at its head. -/
lemma backoff_delays_cons (base n a : Nat) :
    (List.range (n + 1)).map (fun j => base * 2 ^ (a + j)) =
      base * 2 ^ a :: (List.range n).map fun j => base * 2 ^ (a + 1 + j) := by
  rw [List.range_succ_eq_map, List.map_cons, List.map_map]
  refine congrArg₂ List.cons (by rw [Nat.add_zero]) (List.map_congr_left ?_)
  intro j _
  show base * 2 ^ (a + (j + 1)) = base * 2 ^ (a + 1 + j)
  have hj : a + (j + 1) = a + 1 + j := by omega
  rw [hj]

/-- When every attempt up to the bound fails transiently, the retry
loop performs every remaining attempt, sleeping the exponential
backoff delays, and surfaces the last failure. -/
lemma retryAux_all_transient (f : Nat → Attempt) (base : Nat) :
    ∀ (remaining attempt : Nat),
      (∀ i, attempt ≤ i → i ≤ attempt + remaining → attemptTransient (f i) = true) →
      retryAux f base attempt remaining =
        { outcome := lastOutcome (f (attempt + remaining)),
          delays := (List.range remaining).map fun j => base * 2 ^ (attempt + j),
          attempts := remaining + 1 } := by
  intro remaining
  induction remaining with
  | zero =>
    intro attempt h
    have ht := h attempt le_rfl (by omega)
    cases hf : f attempt <;> simp [retryAux, hf, lastOutcome]
  | succ n ih =>
    intro attempt h
    have ht := h attempt le_rfl (by omega)
    have hrec := ih (attempt + 1) fun i h1 h2 => h i (by omega) (by omega)
    have houtc : lastOutcome (f (attempt + 1 + n)) = lastOutcome (f (attempt + (n + 1))) := by
      have ha : attempt + 1 + n = attempt + (n + 1) := by omega
      rw [ha]
    cases hf : f attempt with
    | result r =>
      rw [hf] at ht
      simp only [attemptTransient] at ht
      simp only [retryAux, hf, ht, if_true, hrec]
      simp only [RetryResult.mk.injEq]
      exact ⟨houtc, (backoff_delays_cons base n attempt).symm, trivial⟩
    | thrown m =>
      rw [hf] at ht
      simp only [attemptTransient] at ht
      simp only [retryAux, hf, ht, if_true, hrec]
      simp only [RetryResult.mk.injEq]
      exact ⟨houtc, (backoff_delays_cons base n attempt).symm, trivial⟩

/-- C8. Retry policy of the remote-completion call: transient failures
(429, any 5xx, or a network/timeout transport error) are retried up to
`maxRetries` (default 3) additional attempts with delay
`base * 2 ^ attempt` between attempts, after which the last failure is
surfaced; a non-transient failure (a 4xx other than 429, or a
non-retryable thrown error) is returned immediately with no retry. -/
theorem c8_retry_policy :
    defaultShouldRetry { ok := false, status := 429 } = true
    ∧ (∀ s : Nat, 500 ≤ s → s < 600 → defaultShouldRetry { ok := false, status := s } = true)
    ∧ (∀ s : Nat, 400 ≤ s → s < 500 → s ≠ 429 →
        defaultShouldRetry { ok := false, status := s } = false)
    ∧ shouldRetryMessage "network error" = true
    ∧ shouldRetryMessage "Connection TIMEOUT" = true
    ∧ shouldRetryMessage "ECONNRESET by peer" = true
    ∧ defaultMaxRetries = 3
    ∧ defaultBaseDelayMs = 1000
    ∧ (∀ (f : Nat → Attempt) (maxRetries base : Nat),
        (∀ i, i ≤ maxRetries → attemptTransient (f i) = true) →
        retryWithBackoff f maxRetries base =
          { outcome := lastOutcome (f maxRetries),
            delays := (List.range maxRetries).map fun i => base * 2 ^ i,
            attempts := maxRetries + 1 })
    ∧ (∀ (f : Nat → Attempt) (maxRetries base : Nat) (r : HttpResult),
        f 0 = .result r → r.ok = false → defaultShouldRetry r = false →
        retryWithBackoff f maxRetries base =
          { outcome := .returned r, delays := [], attempts := 1 })
    ∧ (∀ (f : Nat → Attempt) (maxRetries base : Nat) (m : String),
        f 0 = .thrown m → shouldRetryMessage m = false →
        retryWithBackoff f maxRetries base =
          { outcome := .threw m, delays := [], attempts := 1 }) := by
  refine ⟨by decide, ?_, ?_, by decide, by decide, by decide, rfl, rfl, ?_, ?_, ?_⟩
  · intro s h1 h2
    have h4 : (s == 429) = false := by
      simp
      omega
    simp only [defaultShouldRetry, h4, Bool.false_or, Bool.and_eq_true, decide_eq_true_eq]
    exact ⟨h1, h2⟩
  · intro s h1 h2 h3
    have h4 : (s == 429) = false := by simpa using h3
    simp only [defaultShouldRetry, h4, Bool.false_or]
    rw [Bool.eq_false_iff]
    intro hcon
    rw [Bool.and_eq_true] at hcon
    simp only [decide_eq_true_eq] at hcon
    omega
  · intro f maxRetries base h
    have := retryAux_all_transient f base maxRetries 0 fun i h1 h2 => h i (by omega)
    simpa [retryWithBackoff, Nat.zero_add] using this
  · intro f maxRetries base r hf hok hdsr
    cases maxRetries with
    | zero => simp [retryWithBackoff, retryAux, hf]
    | succ k => simp [retryWithBackoff, retryAux, hf, hok, hdsr]
  · intro f maxRetries base m hf hmsg
    cases maxRetries with
    | zero => simp [retryWithBackoff, retryAux, hf]
    | succ k => simp [retryWithBackoff, retryAux, hf, hmsg]

/-- The loop executes at most `fuel` rounds. -/
lemma runLoopAux_trace_length (p : LoopParams) (stream : Nat → RoundInput) :
    ∀ (fuel round : Nat) (st : LoopState),
      (runLoopAux p stream fuel round st).trace.length ≤ fuel := by
  intro fuel
  induction fuel with
  | zero => intro round st; simp [runLoopAux]
  | succ n ih =>
    intro round st
    simp only [runLoopAux]
    cases h : (processRound p st (stream round)).stop with
    | some r => simp
    | none =>
      simpa using Nat.succ_le_succ (ih (round + 1) (processRound p st (stream round)).state)

/-- Every executed round uses the cyclic query schedule and stays in
the window `[round, round + fuel)`. -/
lemma runLoopAux_trace_mem (p : LoopParams) (stream : Nat → RoundInput) :
    ∀ (fuel round : Nat) (st : LoopState) (e : RoundTrace),
      e ∈ (runLoopAux p stream fuel round st).trace →
      e.query = selectQuery p.queries e.round ∧ round ≤ e.round ∧ e.round < round + fuel := by
  intro fuel
  induction fuel with
  | zero => intro round st e he; simp [runLoopAux] at he
  | succ n ih =>
    intro round st e he
    simp only [runLoopAux] at he
    cases h : (processRound p st (stream round)).stop with
    | some r =>
      rw [h] at he
      simp at he
      subst he
      exact ⟨rfl, le_rfl, by show round < round + (n + 1); omega⟩
    | none =>
      rw [h] at he
      simp at he
      cases he with
      | inl he =>
        subst he
        exact ⟨rfl, le_rfl, by show round < round + (n + 1); omega⟩
      | inr he =>
        obtain ⟨hq, h1, h2⟩ := ih (round + 1) (processRound p st (stream round)).state e he
        exact ⟨hq, by omega, by omega⟩

/-- C8 witness: the all-transient conjunct at a constant 503-failing
stream with two retries allowed. -/
theorem c8_retry_policy_witness :
    (∀ i, i ≤ 2 → attemptTransient ((fun _ => Attempt.result { ok := false, status := 503 }) i) = true)
    ∧ retryWithBackoff (fun _ => Attempt.result { ok := false, status := 503 }) 2 1000 =
        { outcome := lastOutcome ((fun _ => Attempt.result { ok := false, status := 503 }) 2),
          delays := (List.range 2).map fun i => 1000 * 2 ^ i,
          attempts := 2 + 1 } :=
  ⟨fun i _ => show attemptTransient (Attempt.result { ok := false, status := 503 }) = true by decide,
   c8_retry_policy.2.2.2.2.2.2.2.2.1 (fun _ => Attempt.result { ok := false, status := 503 }) 2 1000
     fun i _ => show attemptTransient (Attempt.result { ok := false, status := 503 }) = true by decide⟩

/-- C3. Bounded loop and cyclic query schedule: for every configuration
and every stream of stage results the loop executes at most
`maxSearchRounds` rounds; every executed round r uses
`queries[(r - 1) % max(1, len)]`; every configuration built by the
request handler has `maxSearchRounds` between 1 and 10, and for such
rounds the schedule over the sliced query list coincides with
`plan.queries[(r - 1) mod len(plan.queries)]`; in particular with a
query list of length 3, round 1 uses `plan.queries[0]`. -/
theorem c3_bounded_loop_and_cyclic_schedule :
    (∀ (p : LoopParams) (stream : Nat → RoundInput),
        (runLoop p stream).trace.length ≤ p.maxSearchRounds)
    ∧ (∀ (p : LoopParams) (stream : Nat → RoundInput) (e : RoundTrace),
        e ∈ (runLoop p stream).trace →
        e.query = selectQuery p.queries e.round ∧ 1 ≤ e.round ∧ e.round ≤ p.maxSearchRounds)
    ∧ (∀ v : Option JSValue, 1 ≤ cfgMaxSearchRounds v ∧ cfgMaxSearchRounds v ≤ 10)
    ∧ (∀ (qs : List String) (question : String) (r : Nat), qs ≠ [] → 1 ≤ r → r ≤ 10 →
        selectQuery (agentQueries (some qs) question) r = qs[(r - 1) % qs.length]?)
    ∧ (∀ question : String,
        selectQuery (agentQueries (some ["q1", "q2", "q3"]) question) 1 = some "q1") := by
  refine ⟨?_, ?_, ?_, ?_, ?_⟩
  · intro p stream
    exact runLoopAux_trace_length p stream p.maxSearchRounds 1 initLoopState
  · intro p stream e he
    obtain ⟨hq, h1, h2⟩ := runLoopAux_trace_mem p stream p.maxSearchRounds 1 initLoopState e he
    exact ⟨hq, h1, by omega⟩
  · intro v
    unfold cfgMaxSearchRounds clampInt
    cases toNumber (v.getD (.vnum (.finite 4))) with
    | finite q => exact ⟨le_max_left _ _, max_le (by norm_num) (min_le_left _ _)⟩
    | nan => exact ⟨le_rfl, by norm_num⟩
    | posInf => exact ⟨le_rfl, by norm_num⟩
    | negInf => exact ⟨le_rfl, by norm_num⟩
  · intro qs question r hne h1 h10
    have hpos : 1 ≤ qs.length := by
      cases qs with
      | nil => exact absurd rfl hne
      | cons a l => simp
    show (qs.take 10)[(r - 1) % max 1 (qs.take 10).length]? = qs[(r - 1) % qs.length]?
    by_cases hlen : qs.length ≤ 10
    · rw [List.take_of_length_le hlen]
      have hm : max 1 qs.length = qs.length := Nat.max_eq_right hpos
      rw [hm]
    · push_neg at hlen
      have hl : (qs.take 10).length = 10 := by
        rw [List.length_take]
        omega
      rw [hl]
      have hm : max 1 10 = 10 := by norm_num
      rw [hm]
      have hr : (r - 1) % 10 = r - 1 := Nat.mod_eq_of_lt (by omega)
      have hr2 : (r - 1) % qs.length = r - 1 := Nat.mod_eq_of_lt (by omega)
      rw [hr, hr2]
      exact List.getElem?_take_of_lt (by omega)
  · intro question
    show selectQuery (List.take 10 ["q1", "q2", "q3"]) 1 = some "q1"
    decide

/-- C3 witness: the schedule conjunct at a concrete three-query plan
and round 1. -/
theorem c3_bounded_loop_and_cyclic_schedule_witness :
    (["qa", "qb", "qc"] : List String) ≠ [] ∧
      selectQuery (agentQueries (some ["qa", "qb", "qc"]) "q") 1 =
        ["qa", "qb", "qc"][(1 - 1) % (["qa", "qb", "qc"] : List String).length]? :=
  ⟨by decide,
   c3_bounded_loop_and_cyclic_schedule.2.2.2.1 ["qa", "qb", "qc"] "q" 1 (by decide) (by decide)
     (by decide)⟩

/-- Deduplication only ever keeps facts that were in its input. -/
lemma mem_dedupeGo (f : Fact) : ∀ (seen : List String) (l : List Fact),
    f ∈ dedupeGo seen l → f ∈ l := by
  intro seen l
  induction l generalizing seen with
  | nil => intro h; simp [dedupeGo] at h
  | cons g rest ih =>
    intro h
    simp only [dedupeGo] at h
    split_ifs at h with h1 h2
    · exact List.mem_cons_of_mem g (ih seen h)
    · exact List.mem_cons_of_mem g (ih seen h)
    · rcases List.mem_cons.mp h with rfl | h3
      · exact List.mem_cons_self f rest
      · exact List.mem_cons_of_mem g (ih _ h3)

/-- A normalized fact never pairs a low source quality with a high
confidence: the clamp of src/worker.js line 1324. -/
lemma normalizeRoundFact_clamped (raw : RawFact) :
    ¬((normalizeRoundFact raw).source_quality ≤ 2 ∧ (normalizeRoundFact raw).confidence > 3) := by
  simp only [normalizeRoundFact]
  intro hand
  obtain ⟨hq, hc⟩ := hand
  split_ifs at hc with h
  · omega
  · exact h ⟨hq, hc⟩

/-- The accumulated fact list after a round is the deduplicated union
of the previous list and the normalized, filtered round facts
(definitional). -/
lemma processRound_state_allFacts (p : LoopParams) (st : LoopState) (inp : RoundInput) :
    (processRound p st inp).state.allFacts = dedupeFacts (st.allFacts ++ roundFactsOf p inp) := rfl

/-- C1. Confidence-clamp invariant: normalization caps confidence at 3
whenever the source quality derived from the URL is at most 2, and in
every round no fact retained into the accumulated evidence set has
`source_quality <= 2` together with `confidence > 3`. -/
theorem c1_confidence_clamp_invariant :
    (∀ (p : LoopParams) (stream : Nat → RoundInput) (n : Nat) (f : Fact),
        f ∈ (stateAfter p stream n).allFacts →
        ¬(f.source_quality ≤ 2 ∧ f.confidence > 3))
    ∧ (∀ raw : RawFact, domainQualityScore (normalizeUrl raw.url) ≤ 2 →
        (normalizeRoundFact raw).confidence ≤ 3) := by
  constructor
  · intro p stream n
    induction n with
    | zero =>
      intro f hmem
      simp [stateAfter, initLoopState] at hmem
    | succ m ih =>
      intro f hmem
      rw [show stateAfter p stream (m + 1) =
            (processRound p (stateAfter p stream m) (stream (m + 1))).state from rfl,
          processRound_state_allFacts] at hmem
      have hmem2 := mem_dedupeGo f [] _ hmem
      rcases List.mem_append.mp hmem2 with hold | hnew
      · exact ih f hold
      · have h1 := (List.mem_filter.mp hnew).1
        have h2 := (List.mem_filter.mp h1).1
        obtain ⟨raw, _, rfl⟩ := List.mem_map.mp h2
        exact normalizeRoundFact_clamped raw
  · intro raw h
    simp only [normalizeRoundFact]
    split_ifs with hc
    · omega
    · rw [Classical.not_and_iff_or_not_not] at hc
      rcases hc with hc | hc
      · exact absurd h hc
      · omega

/-- A low-quality candidate fact used by the C1 witness. -/
def cw1Raw : RawFact :=
  { fact := "water boils at 100c", url := "https://blog.example.com/a",
    title := none, date := none, confidence := some 5 }

/-- The loop parameters used by the C1 witness. -/
def cw1Params : LoopParams :=
  { queries := ["q"], maxSearchRounds := 4, maxFacts := 18, minNewFactsPerRound := 2,
    minSources := 3, minFacts := 8, noNewRoundsLimit := 2, forceDomains := none }

/-- The stage-result stream used by the C1 witness. -/
def cw1Stream : Nat → RoundInput :=
  fun _ => { facts := [cw1Raw], conflicts := [] }

/-- C1 witness: the invariant at a concrete retained fact whose source
scores 2 and whose author confidence was 5 (clamped to 3). -/
theorem c1_confidence_clamp_invariant_witness :
    normalizeRoundFact cw1Raw ∈ (stateAfter cw1Params cw1Stream 1).allFacts
    ∧ ¬((normalizeRoundFact cw1Raw).source_quality ≤ 2
        ∧ (normalizeRoundFact cw1Raw).confidence > 3) :=
  ⟨by decide,
   c1_confidence_clamp_invariant.1 cw1Params cw1Stream 1 (normalizeRoundFact cw1Raw) (by decide)⟩

/-- The stagnation counter update of a round (definitional: increment
on a sub-threshold round, reset to zero otherwise —
src/worker.js lines 1358-1359). -/
lemma processRound_state_noNewRounds (p : LoopParams) (st : LoopState) (inp : RoundInput) :
    (processRound p st inp).state.noNewRounds =
      if (processRound p st inp).newFacts < p.minNewFactsPerRound then st.noNewRounds + 1
      else 0 := rfl

/-- The stop evaluation of a round in its fixed priority order
(definitional — src/worker.js lines 1361-1374). -/
lemma processRound_stop_eq (p : LoopParams) (st : LoopState) (inp : RoundInput) :
    (processRound p st inp).stop =
      (if ((processRound p st inp).state.allFacts.length : Int) ≥ p.maxFacts then
        some StopReason.max_facts_reached
       else if ((processRound p st inp).state.seenUrls.length : Int) ≥ p.minSources ∧
          ((processRound p st inp).state.allFacts.length : Int) ≥ p.minFacts then
        some StopReason.coverage_reached
       else if ((processRound p st inp).state.noNewRounds : Int) ≥ p.noNewRoundsLimit then
        some StopReason.stagnation
       else none) := rfl

/-- A round whose stop condition fires ends the loop at that round. -/
lemma runLoopAux_stopInfo_some (p : LoopParams) (stream : Nat → RoundInput)
    (fuel round : Nat) (st : LoopState) (r : StopReason)
    (h : (processRound p st (stream round)).stop = some r) :
    (runLoopAux p stream (fuel + 1) round st).stopInfo = some (round, r) := by
  simp only [runLoopAux]
  rw [h]

/-- A round with no stop condition hands the loop to the next round. -/
lemma runLoopAux_stopInfo_none (p : LoopParams) (stream : Nat → RoundInput)
    (fuel round : Nat) (st : LoopState)
    (h : (processRound p st (stream round)).stop = none) :
    (runLoopAux p stream (fuel + 1) round st).stopInfo =
      (runLoopAux p stream fuel (round + 1) (processRound p st (stream round)).state).stopInfo := by
  simp only [runLoopAux]
  rw [h]

/-- C2. Stagnation stop with counter reset: when the per-round new-fact
counts are [1, 0, 3, 0, 0] with `minNewFactsPerRound = 1` and
`noNewFactsRoundLimit = 2`, and neither the fact budget nor the
coverage condition fires in rounds 1-5, the loop stops with reason
stagnation exactly after round 5; and any round meeting the per-round
threshold resets the consecutive sub-threshold counter to zero. -/
theorem c2_stagnation_stop_with_counter_reset :
    (∀ (p : LoopParams) (stream : Nat → RoundInput),
      p.minNewFactsPerRound = 1 → p.noNewRoundsLimit = 2 → 5 ≤ p.maxSearchRounds →
      newFactsAt p stream 1 = 1 → newFactsAt p stream 2 = 0 → newFactsAt p stream 3 = 3 →
      newFactsAt p stream 4 = 0 → newFactsAt p stream 5 = 0 →
      (∀ i, i < 6 → 1 ≤ i →
        ¬(((stateAfter p stream i).allFacts.length : Int) ≥ p.maxFacts)) →
      (∀ i, i < 6 → 1 ≤ i →
        ¬(((stateAfter p stream i).seenUrls.length : Int) ≥ p.minSources ∧
          ((stateAfter p stream i).allFacts.length : Int) ≥ p.minFacts)) →
      (runLoop p stream).stopInfo = some (5, StopReason.stagnation))
    ∧ (∀ (p : LoopParams) (st : LoopState) (inp : RoundInput),
        ¬((processRound p st inp).newFacts < p.minNewFactsPerRound) →
        (processRound p st inp).state.noNewRounds = 0) := by
  constructor
  · intro p stream hmin hlim hmax h1 h2 h3 h4 h5 hb hc
    have hst0 : (processRound p (stateAfter p stream 0) (stream 1)).state =
        stateAfter p stream 1 := rfl
    have hst1 : (processRound p (stateAfter p stream 1) (stream 2)).state =
        stateAfter p stream 2 := rfl
    have hst2 : (processRound p (stateAfter p stream 2) (stream 3)).state =
        stateAfter p stream 3 := rfl
    have hst3 : (processRound p (stateAfter p stream 3) (stream 4)).state =
        stateAfter p stream 4 := rfl
    have hst4 : (processRound p (stateAfter p stream 4) (stream 5)).state =
        stateAfter p stream 5 := rfl
    have c1 : (stateAfter p stream 1).noNewRounds = 0 := by
      show (processRound p (stateAfter p stream 0) (stream 1)).state.noNewRounds = 0
      rw [processRound_state_noNewRounds,
        show (processRound p (stateAfter p stream 0) (stream 1)).newFacts = 1 from h1, hmin]
      simp
    have c2 : (stateAfter p stream 2).noNewRounds = 1 := by
      show (processRound p (stateAfter p stream 1) (stream 2)).state.noNewRounds = 1
      rw [processRound_state_noNewRounds,
        show (processRound p (stateAfter p stream 1) (stream 2)).newFacts = 0 from h2, hmin, c1]
      simp
    have c3 : (stateAfter p stream 3).noNewRounds = 0 := by
      show (processRound p (stateAfter p stream 2) (stream 3)).state.noNewRounds = 0
      rw [processRound_state_noNewRounds,
        show (processRound p (stateAfter p stream 2) (stream 3)).newFacts = 3 from h3, hmin]
      simp
    have c4 : (stateAfter p stream 4).noNewRounds = 1 := by
      show (processRound p (stateAfter p stream 3) (stream 4)).state.noNewRounds = 1
      rw [processRound_state_noNewRounds,
        show (processRound p (stateAfter p stream 3) (stream 4)).newFacts = 0 from h4, hmin, c3]
      simp
    have c5 : (stateAfter p stream 5).noNewRounds = 2 := by
      show (processRound p (stateAfter p stream 4) (stream 5)).state.noNewRounds = 2
      rw [processRound_state_noNewRounds,
        show (processRound p (stateAfter p stream 4) (stream 5)).newFacts = 0 from h5, hmin, c4]
      simp
    have s1 : (processRound p (stateAfter p stream 0) (stream 1)).stop = none := by
      rw [processRound_stop_eq, hst0, c1, hlim]
      rw [if_neg (hb 1 (by norm_num) (by norm_num)), if_neg (hc 1 (by norm_num) (by norm_num)),
        if_neg (by norm_num)]
    have s2 : (processRound p (stateAfter p stream 1) (stream 2)).stop = none := by
      rw [processRound_stop_eq, hst1, c2, hlim]
      rw [if_neg (hb 2 (by norm_num) (by norm_num)), if_neg (hc 2 (by norm_num) (by norm_num)),
        if_neg (by norm_num)]
    have s3 : (processRound p (stateAfter p stream 2) (stream 3)).stop = none := by
      rw [processRound_stop_eq, hst2, c3, hlim]
      rw [if_neg (hb 3 (by norm_num) (by norm_num)), if_neg (hc 3 (by norm_num) (by norm_num)),
        if_neg (by norm_num)]
    have s4 : (processRound p (stateAfter p stream 3) (stream 4)).stop = none := by
      rw [processRound_stop_eq, hst3, c4, hlim]
      rw [if_neg (hb 4 (by norm_num) (by norm_num)), if_neg (hc 4 (by norm_num) (by norm_num)),
        if_neg (by norm_num)]
    have s5 : (processRound p (stateAfter p stream 4) (stream 5)).stop =
        some StopReason.stagnation := by
      rw [processRound_stop_eq, hst4, c5, hlim]
      rw [if_neg (hb 5 (by norm_num) (by norm_num)), if_neg (hc 5 (by norm_num) (by norm_num)),
        if_pos (by norm_num)]
    obtain ⟨k, hk⟩ : ∃ k, p.maxSearchRounds = k + 5 := ⟨p.maxSearchRounds - 5, by omega⟩
    unfold runLoop
    rw [show initLoopState = stateAfter p stream 0 from rfl, hk,
      show k + 5 = (k + 4) + 1 from by omega,
      runLoopAux_stopInfo_none p stream (k + 4) 1 (stateAfter p stream 0) s1, hst0,
      show k + 4 = (k + 3) + 1 from by omega,
      runLoopAux_stopInfo_none p stream (k + 3) 2 (stateAfter p stream 1) s2, hst1,
      show k + 3 = (k + 2) + 1 from by omega,
      runLoopAux_stopInfo_none p stream (k + 2) 3 (stateAfter p stream 2) s3, hst2,
      show k + 2 = (k + 1) + 1 from by omega,
      runLoopAux_stopInfo_none p stream (k + 1) 4 (stateAfter p stream 3) s4, hst3,
      runLoopAux_stopInfo_some p stream k 5 (stateAfter p stream 4) StopReason.stagnation s5]
  · intro p st inp h
    rw [processRound_state_noNewRounds, if_neg h]

/-- A candidate fact used by the C2 witness. -/
def cw2Fact (s : String) : RawFact :=
  { fact := s, url := "https://example.gov/" ++ s, title := none, date := none,
    confidence := some 4 }

/-- The loop parameters used by the C2 witness. -/
def cw2Params : LoopParams :=
  { queries := ["q"], maxSearchRounds := 10, maxFacts := 50, minNewFactsPerRound := 1,
    minSources := 3, minFacts := 8, noNewRoundsLimit := 2, forceDomains := none }

/-- The stage-result stream used by the C2 witness: one fresh fact in
round 1, three in round 3, none elsewhere. -/
def cw2Stream : Nat → RoundInput :=
  fun n =>
    if n = 1 then { facts := [cw2Fact "a"], conflicts := [] }
    else if n = 3 then { facts := [cw2Fact "b", cw2Fact "c", cw2Fact "d"], conflicts := [] }
    else { facts := [], conflicts := [] }

/-- C2 witness: the stagnation conclusion at a concrete run realizing
the new-fact trace [1, 0, 3, 0, 0]. -/
theorem c2_stagnation_stop_with_counter_reset_witness :
    newFactsAt cw2Params cw2Stream 1 = 1
    ∧ newFactsAt cw2Params cw2Stream 2 = 0
    ∧ newFactsAt cw2Params cw2Stream 3 = 3
    ∧ newFactsAt cw2Params cw2Stream 4 = 0
    ∧ newFactsAt cw2Params cw2Stream 5 = 0
    ∧ (runLoop cw2Params cw2Stream).stopInfo = some (5, StopReason.stagnation) :=
  ⟨by decide, by decide, by decide, by decide, by decide,
   c2_stagnation_stop_with_counter_reset.1 cw2Params cw2Stream rfl rfl (by decide)
     (by decide) (by decide) (by decide) (by decide) (by decide) (by decide) (by decide)⟩

/-- One-step unfolding of the resume poll loop (definitional). -/
lemma resumePollLoop_succ (rid : String) (polls : Nat → FetchResult)
    (fuel idx elapsed : Nat) (result : RespData) (consec fetches : Nat) :
    resumePollLoop rid polls (fuel + 1) idx elapsed result consec fetches =
      (if (result.status = "in_progress" ∨ result.status = "queued") ∧ elapsed < maxWaitMs then
        match polls idx with
        | .httpOk d =>
          resumePollLoop rid polls fuel (idx + 1) (elapsed + pollIntervalMs) d 0 (fetches + 1)
        | .httpErr status ra body =>
          if status = 429 then
            if consec + 1 ≥ maxConsecutiveErrors then
              .earlyReturn (rateLimitedResume rid result) (fetches + 1)
            else
              resumePollLoop rid polls fuel (idx + 1)
                (elapsed + pollIntervalMs + ra.getD 10 * 1000) result (consec + 1) (fetches + 1)
          else
            if consec + 1 ≥ maxConsecutiveErrors then
              .earlyReturn (pollErrorResume rid result ("Polling error: " ++ body)) (fetches + 1)
            else
              resumePollLoop rid polls fuel (idx + 1) (elapsed + pollIntervalMs) result
                (consec + 1) (fetches + 1)
        | .netErr m =>
          if consec + 1 ≥ maxConsecutiveErrors then
            .earlyReturn (pollErrorResume rid result m) (fetches + 1)
          else
            resumePollLoop rid polls fuel (idx + 1) (elapsed + pollIntervalMs) result
              (consec + 1) (fetches + 1)
      else .finished result fetches) := rfl

/-- The fuel of the resume poll loop is irrelevant once it covers the
wait window: every iteration sleeps at least `pollIntervalMs`, so with
`maxWaitMs ≤ elapsed + fuel * pollIntervalMs` adding fuel changes
nothing. In particular the fixed fuel 361 used by
`handleResumeResponse` behaves as an unbounded while loop. -/
lemma resumePollLoop_fuel_irrelevant (rid : String) (polls : Nat → FetchResult) :
    ∀ (fuel idx elapsed : Nat) (result : RespData) (consec fetches : Nat),
      maxWaitMs ≤ elapsed + fuel * pollIntervalMs →
      resumePollLoop rid polls fuel idx elapsed result consec fetches =
        resumePollLoop rid polls (fuel + 1) idx elapsed result consec fetches := by
  intro fuel
  induction fuel with
  | zero =>
    intro idx elapsed result consec fetches h
    rw [resumePollLoop_succ, if_neg]
    · rfl
    · intro hcond
      obtain ⟨-, hlt⟩ := hcond
      simp only [maxWaitMs] at h hlt
      omega
  | succ n ih =>
    intro idx elapsed result consec fetches h
    rw [resumePollLoop_succ rid polls (n + 1) idx elapsed result consec fetches,
      resumePollLoop_succ rid polls n idx elapsed result consec fetches]
    by_cases hcond : (result.status = "in_progress" ∨ result.status = "queued")
        ∧ elapsed < maxWaitMs
    · rw [if_pos hcond, if_pos hcond]
      cases hpoll : polls idx with
      | httpOk d =>
        dsimp only
        exact ih _ _ _ _ _ (by simp only [maxWaitMs, pollIntervalMs] at h ⊢; omega)
      | httpErr status ra body =>
        dsimp only
        by_cases hs : status = 429
        · rw [if_pos hs, if_pos hs]
          by_cases hbnd : consec + 1 ≥ maxConsecutiveErrors
          · rw [if_pos hbnd, if_pos hbnd]
          · rw [if_neg hbnd, if_neg hbnd]
            exact ih _ _ _ _ _ (by simp only [maxWaitMs, pollIntervalMs] at h ⊢; omega)
        · rw [if_neg hs, if_neg hs]
          by_cases hbnd : consec + 1 ≥ maxConsecutiveErrors
          · rw [if_pos hbnd, if_pos hbnd]
          · rw [if_neg hbnd, if_neg hbnd]
            exact ih _ _ _ _ _ (by simp only [maxWaitMs, pollIntervalMs] at h ⊢; omega)
      | netErr m =>
        dsimp only
        by_cases hbnd : consec + 1 ≥ maxConsecutiveErrors
        · rw [if_pos hbnd, if_pos hbnd]
        · rw [if_neg hbnd, if_neg hbnd]
          exact ih _ _ _ _ _ (by simp only [maxWaitMs, pollIntervalMs] at h ⊢; omega)
    · rw [if_neg hcond, if_neg hcond]

/-- One-step unfolding of the submit-path poll loop (definitional). -/
lemma deepPollLoop_succ (polls : Nat → FetchResult)
    (fuel idx elapsed : Nat) (result : RespData) (consec fetches : Nat) :
    deepPollLoop polls (fuel + 1) idx elapsed result consec fetches =
      (if (result.status = "in_progress" ∨ result.status = "queued") ∧ elapsed < maxWaitMs then
        match polls idx with
        | .httpOk d =>
          deepPollLoop polls fuel (idx + 1) (elapsed + pollIntervalMs) d 0 (fetches + 1)
        | .httpErr status ra body =>
          if status = 429 then
            if consec + 1 ≥ maxConsecutiveErrors then
              .threw "Rate limit exceeded after 3 retries" (fetches + 1)
            else
              deepPollLoop polls fuel (idx + 1)
                (elapsed + pollIntervalMs + ra.getD 5 * 1000) result (consec + 1) (fetches + 1)
          else
            if consec + 1 ≥ maxConsecutiveErrors then
              .threw ("Polling error: " ++ body) (fetches + 1)
            else
              deepPollLoop polls fuel (idx + 1) (elapsed + pollIntervalMs) result (consec + 1)
                (fetches + 1)
        | .netErr m =>
          if strContains m "Rate limit" then .threw m (fetches + 1)
          else if consec + 1 ≥ maxConsecutiveErrors then .threw m (fetches + 1)
          else
            deepPollLoop polls fuel (idx + 1) (elapsed + pollIntervalMs) result (consec + 1)
              (fetches + 1)
      else .finished result fetches) := rfl

/-- The fuel of the submit-path poll loop is likewise irrelevant once
it covers the wait window. -/
lemma deepPollLoop_fuel_irrelevant (polls : Nat → FetchResult) :
    ∀ (fuel idx elapsed : Nat) (result : RespData) (consec fetches : Nat),
      maxWaitMs ≤ elapsed + fuel * pollIntervalMs →
      deepPollLoop polls fuel idx elapsed result consec fetches =
        deepPollLoop polls (fuel + 1) idx elapsed result consec fetches := by
  intro fuel
  induction fuel with
  | zero =>
    intro idx elapsed result consec fetches h
    rw [deepPollLoop_succ, if_neg]
    · rfl
    · intro hcond
      obtain ⟨-, hlt⟩ := hcond
      simp only [maxWaitMs] at h hlt
      omega
  | succ n ih =>
    intro idx elapsed result consec fetches h
    rw [deepPollLoop_succ polls (n + 1) idx elapsed result consec fetches,
      deepPollLoop_succ polls n idx elapsed result consec fetches]
    by_cases hcond : (result.status = "in_progress" ∨ result.status = "queued")
        ∧ elapsed < maxWaitMs
    · rw [if_pos hcond, if_pos hcond]
      cases hpoll : polls idx with
      | httpOk d =>
        dsimp only
        exact ih _ _ _ _ _ (by simp only [maxWaitMs, pollIntervalMs] at h ⊢; omega)
      | httpErr status ra body =>
        dsimp only
        by_cases hs : status = 429
        · rw [if_pos hs, if_pos hs]
          by_cases hbnd : consec + 1 ≥ maxConsecutiveErrors
          · rw [if_pos hbnd, if_pos hbnd]
          · rw [if_neg hbnd, if_neg hbnd]
            exact ih _ _ _ _ _ (by simp only [maxWaitMs, pollIntervalMs] at h ⊢; omega)
        · rw [if_neg hs, if_neg hs]
          by_cases hbnd : consec + 1 ≥ maxConsecutiveErrors
          · rw [if_pos hbnd, if_pos hbnd]
          · rw [if_neg hbnd, if_neg hbnd]
            exact ih _ _ _ _ _ (by simp only [maxWaitMs, pollIntervalMs] at h ⊢; omega)
      | netErr m =>
        dsimp only
        by_cases hrl : strContains m "Rate limit" = true
        · rw [if_pos hrl, if_pos hrl]
        · rw [if_neg hrl, if_neg hrl]
          by_cases hbnd : consec + 1 ≥ maxConsecutiveErrors
          · rw [if_pos hbnd, if_pos hbnd]
          · rw [if_neg hbnd, if_neg hbnd]
            exact ih _ _ _ _ _ (by simp only [maxWaitMs, pollIntervalMs] at h ⊢; omega)
    · rw [if_neg hcond, if_neg hcond]

/-- Resuming an already-completed job replies immediately after the one
status fetch. -/
lemma handleResume_completed (rid : String) (d : RespData) (polls : Nat → FetchResult)
    (h : d.status = "completed") :
    handleResumeResponse rid (.ok d) polls = (completedResume rid d, 1) := by
  simp only [handleResumeResponse]
  rw [if_pos h]

/-- When the resume poll loop exits normally, the reply is selected by
the final status. -/
lemma handleResume_poll_finished (rid : String) (polls : Nat → FetchResult)
    (d result : RespData) (fetches : Nat)
    (hd : d.status = "in_progress" ∨ d.status = "queued")
    (hloop : resumePollLoop rid polls pollLoopFuel 0 0 d 0 1 = .finished result fetches) :
    handleResumeResponse rid (.ok d) polls =
      (if result.status = "in_progress" ∨ result.status = "queued" then
        (timeoutResume rid result, fetches)
       else if result.status = "completed" then (completedResume rid result, fetches)
       else if result.status = "failed" then (failedResume rid result, fetches)
       else (unknownResume rid result, fetches)) := by
  have hne1 : ¬d.status = "completed" := by rcases hd with h | h <;> simp [h]
  have hne2 : ¬d.status = "failed" := by rcases hd with h | h <;> simp [h]
  have hne3 : ¬d.status = "cancelled" := by rcases hd with h | h <;> simp [h]
  simp only [handleResumeResponse]
  rw [if_neg hne1, if_neg hne2, if_neg hne3, if_pos hd, hloop]

/-- C6. Resume on a terminal job is a one-fetch no-poll operation and
is idempotent: when the remote status is already completed, resume
issues exactly one status fetch, returns the extracted answer without
entering the poll loop (the result does not depend on the poll stream
at all), and two calls return the same answer. -/
theorem c6_resume_terminal_one_fetch_idempotent :
    (∀ (rid : String) (d : RespData) (polls : Nat → FetchResult), d.status = "completed" →
        handleResumeResponse rid (.ok d) polls = (completedResume rid d, 1))
    ∧ (∀ (rid : String) (d : RespData) (polls1 polls2 : Nat → FetchResult),
        d.status = "completed" →
        handleResumeResponse rid (.ok d) polls1 = handleResumeResponse rid (.ok d) polls2)
    ∧ (∀ (rid : String) (d : RespData) (polls : Nat → FetchResult), d.status = "completed" →
        (handleResumeResponse rid (.ok d) polls).1.answer = some (extractText (some d))
        ∧ (handleResumeResponse rid (.ok d) polls).1.ok = true
        ∧ (handleResumeResponse rid (.ok d) polls).2 = 1) := by
  refine ⟨handleResume_completed, ?_, ?_⟩
  · intro rid d polls1 polls2 h
    rw [handleResume_completed rid d polls1 h, handleResume_completed rid d polls2 h]
  · intro rid d polls h
    rw [handleResume_completed rid d polls h]
    exact ⟨rfl, rfl, rfl⟩

/-- The completed response used by the C6 witness. -/
def cw6Data : RespData :=
  { id := some "resp_w6", status := "completed", output_text := some "the answer",
    output := none, error_message := none, error_code := none }

/-- C6 witness: the one-fetch conjunct at a concrete completed job,
with a poll stream that would fail if it were ever consulted. -/
theorem c6_resume_terminal_one_fetch_idempotent_witness :
    cw6Data.status = "completed"
    ∧ handleResumeResponse "resp_w6" (.ok cw6Data) (fun _ => .netErr "boom") =
        (completedResume "resp_w6" cw6Data, 1) :=
  ⟨rfl, c6_resume_terminal_one_fetch_idempotent.1 "resp_w6" cw6Data (fun _ => .netErr "boom") rfl⟩

/-- C7 (amended). On the resume path a poll loop that exhausts the
30-minute window while the job is still queued or in_progress replies
with a timed-out failure carrying the job id (both in the message and
in the `response_id` field); on the submit-and-poll path the same
situation throws the fixed message "Deep research timed out after 30
minutes", which does not depend on (and does not contain) the job
id. -/
theorem c7_timeout_job_id_amended :
    (∀ (rid : String) (polls : Nat → FetchResult) (d result : RespData) (fetches : Nat),
      (d.status = "in_progress" ∨ d.status = "queued") →
      resumePollLoop rid polls pollLoopFuel 0 0 d 0 1 = .finished result fetches →
      (result.status = "in_progress" ∨ result.status = "queued") →
      handleResumeResponse rid (.ok d) polls = (timeoutResume rid result, fetches)
      ∧ (timeoutResume rid result).response_id = some rid
      ∧ strContains ((timeoutResume rid result).error.getD "") rid = true)
    ∧ (∀ (polls : Nat → FetchResult) (initial result : RespData) (fetches : Nat),
      (initial.status = "in_progress" ∨ initial.status = "queued") →
      deepPollLoop polls pollLoopFuel 0 0 initial 0 0 = .finished result fetches →
      (result.status = "in_progress" ∨ result.status = "queued") →
      deepResearchPollPhase true polls initial = .threw "Deep research timed out after 30 minutes"
      ∧ workerCatchBody "Deep research timed out after 30 minutes" =
          { error := "Deep research timed out after 30 minutes" }) := by
  constructor
  · intro rid polls d result fetches hd hloop hr
    refine ⟨?_, rfl, ?_⟩
    · rw [handleResume_poll_finished rid polls d result fetches hd hloop, if_pos hr]
    · show strContains
        ("Polling timed out after 30 minutes. Use GET /research/" ++ rid ++ " to resume later.")
        rid = true
      exact strContains_append _ _ _
  · intro polls initial result fetches hinit hloop hr
    refine ⟨?_, rfl⟩
    simp only [deepResearchPollPhase]
    rw [if_pos ⟨trivial, hinit⟩, hloop]
    show (if result.status = "in_progress" ∨ result.status = "queued" then
        DeepPhaseEnd.threw "Deep research timed out after 30 minutes"
      else DeepPhaseEnd.proceed result) = DeepPhaseEnd.threw "Deep research timed out after 30 minutes"
    rw [if_pos hr]

/-- The permanently in-progress response used by the C7 witness and
counterexample; its job id is `resp_abc123`. -/
def cw7Data : RespData :=
  { id := some "resp_abc123", status := "in_progress", output_text := none, output := none,
    error_message := none, error_code := none }

/-- C7 witness: the resume-path conjunct at a job that stays
in_progress through the whole window (361 status fetches: the initial
one plus 360 polls). -/
theorem c7_timeout_job_id_amended_witness :
    (cw7Data.status = "in_progress" ∨ cw7Data.status = "queued")
    ∧ handleResumeResponse "resp_abc123" (.ok cw7Data) (fun _ => .httpOk cw7Data) =
        (timeoutResume "resp_abc123" cw7Data, 361)
    ∧ (timeoutResume "resp_abc123" cw7Data).response_id = some "resp_abc123"
    ∧ strContains ((timeoutResume "resp_abc123" cw7Data).error.getD "") "resp_abc123" = true :=
  ⟨Or.inl rfl,
   (c7_timeout_job_id_amended.1 "resp_abc123" (fun _ => .httpOk cw7Data) cw7Data cw7Data 361
     (Or.inl rfl) (by decide) (Or.inl rfl)).1,
   (c7_timeout_job_id_amended.1 "resp_abc123" (fun _ => .httpOk cw7Data) cw7Data cw7Data 361
     (Or.inl rfl) (by decide) (Or.inl rfl)).2.1,
   (c7_timeout_job_id_amended.1 "resp_abc123" (fun _ => .httpOk cw7Data) cw7Data cw7Data 361
     (Or.inl rfl) (by decide) (Or.inl rfl)).2.2⟩

/-- C7 counterexample to the claim as stated: on the submit-and-poll
path, a job with id `resp_abc123` that exceeds the wait window while
still in_progress ends in a thrown error whose message does not contain
the job id, and the worker surfaces it as a bare error body with no
`response_id` field. -/
theorem c7_timeout_job_id_counterexample :
    deepResearchPollPhase true (fun _ => .httpOk cw7Data) cw7Data =
      .threw "Deep research timed out after 30 minutes"
    ∧ strContains "Deep research timed out after 30 minutes" "resp_abc123" = false
    ∧ workerCatchBody "Deep research timed out after 30 minutes" =
        { error := "Deep research timed out after 30 minutes" } :=
  ⟨by decide, by decide, rfl⟩

end DeepResearch
